import Mathlib

/-!
Verification of BAC0/core/io/Read.py (class ReadProperty).

The module is embedded shallowly:
* `build_rp_request` and `build_rpm_request` are translated directly from the
  source as pure functions over the token list, with the external collaborators
  (object-class registry, datatype registry, the `PropertyIdentifier.enumerations`
  set, the started flag) abstracted into an `Env` record.
* `read` and `readMultiple` are translated as functions of the environment, the
  outcome of the submission step and the outcome of the blocking queue read;
  besides the result they return the list of observable events (lock acquire /
  release, request submission, logging, queue get, acknowledgment), which lets
  the locking discipline be stated and proved.
Python exceptions are modelled by `Except` with one error constructor per
distinct raise site.
-/

deriving instance DecidableEq for Except

namespace BAC0

/-- Nonempty and all characters decimal digits (character-list form). -/
def isDigitChars (cs : List Char) : Bool :=
  !cs.isEmpty && cs.all Char.isDigit

/-- Value of a decimal-digit character list. -/
def digitsVal (cs : List Char) : Nat :=
  cs.foldl (fun n c => 10 * n + (c.toNat - 48)) 0

/-- Python `str.isdigit()` restricted to ASCII: nonempty and all characters
are decimal digits. -/
def pyIsDigit (s : String) : Bool :=
  isDigitChars s.data

/-- Value of a nonempty decimal-digit string (the value `int()` returns on
such a string). -/
def digitsToNat (s : String) : Nat :=
  digitsVal s.data

/-- Python `int(s)` on the string shapes this module can meet: a digit string
or a `-`-prefixed digit string; anything else raises `ValueError` (`none`). -/
def pyInt (s : String) : Option Int :=
  if pyIsDigit s then some ((digitsToNat s : Nat) : Int)
  else if s.data.head? = some '-' ∧ isDigitChars s.data.tail then
    some (-((digitsVal s.data.tail : Nat) : Int))
  else none

/-- Helper for `pySplit`: walk the characters, accumulating the current token
in reverse; whitespace ends the token (if any). -/
def splitWSAux : List Char → List Char → List String
  | [], acc => if acc.isEmpty then [] else [acc.reverse.asString]
  | c :: cs, acc =>
    if c.isWhitespace then
      if acc.isEmpty then splitWSAux cs []
      else acc.reverse.asString :: splitWSAux cs []
    else splitWSAux cs (c :: acc)

/-- Python `str.split()` with no argument: split on whitespace runs, dropping
empty pieces. -/
def pySplit (s : String) : List String :=
  splitWSAux s.data []

/-- An object type as the source manipulates it: `obj_type` stays a string
unless `isdigit()`, in which case it is replaced by `int(obj_type)`. -/
inductive ObjType where
  | code (n : Nat)
  | named (s : String)
deriving DecidableEq, Repr

/-- The external collaborators of the module, read-only during a call:
the engine-started flag, `get_object_class` (truthiness only),
`get_datatype` (truthiness only) and `PropertyIdentifier.enumerations`. -/
structure Env where
  started : Bool
  getObjectClass : String → Bool
  getDatatype : ObjType → String → Bool
  enumerations : List String

/-- `bacpypes.apdu.ReadPropertyRequest` as populated by `build_rp_request`
(the destination address is kept as the raw string; `Address` parsing is an
external collaborator). -/
structure ReadPropertyRequest where
  pduDestination : String
  objectIdentifier : ObjType × Int
  propertyIdentifier : String
  propertyArrayIndex : Option Int
deriving DecidableEq, Repr

/-- `bacpypes.apdu.PropertyReference` as populated by `build_rpm_request`. -/
structure PropertyReference where
  propertyIdentifier : String
  propertyArrayIndex : Option Int
deriving DecidableEq, Repr

/-- `bacpypes.apdu.ReadAccessSpecification` as populated by
`build_rpm_request`. -/
structure ReadAccessSpecification where
  objectIdentifier : ObjType × Int
  listOfPropertyReferences : List PropertyReference
deriving DecidableEq, Repr

/-- `bacpypes.apdu.ReadPropertyMultipleRequest` as populated by
`build_rpm_request`. -/
structure ReadPropertyMultipleRequest where
  pduDestination : String
  listOfReadAccessSpecs : List ReadAccessSpecification
deriving DecidableEq, Repr

/-- One constructor per distinct raise site of the source. -/
inductive BErr where
  | applicationNotStarted      -- ApplicationNotStarted("App not running, ...")
  | unknownObjectType          -- ValueError("unknown object type")
  | invalidProperty            -- ValueError("invalid property for object type")
  | emptyPropertyList          -- ValueError("provide at least one property")
  | emptySpecList              -- RuntimeError("at least one read access specification required")
  | unpackError                -- ValueError from `addr, obj_type, obj_inst, prop_id = args[:4]`
  | intError                   -- ValueError from int()
  | indexError                 -- IndexError from args[i]
  | segmentationNotSupported   -- SegmentationNotSupported
  | noResponseFromController   -- NoResponseFromController
deriving DecidableEq, Repr

/-- The object-type step shared by both builders:
`if obj_type.isdigit(): obj_type = int(obj_type)`
`elif not get_object_class(obj_type): raise ValueError("unknown object type")`. -/
def resolveObjType (env : Env) (t : String) : Except BErr ObjType :=
  if pyIsDigit t then .ok (.code (digitsToNat t))
  else if env.getObjectClass t then .ok (.named t)
  else .error .unknownObjectType

/-- `ReadProperty.build_rp_request(args, arr_index)`. -/
def build_rp_request (env : Env) (args : List String) (arr_index : Option Int) :
    Except BErr ReadPropertyRequest :=
  match args with
  | addr :: otTok :: oiTok :: prop_id :: rest =>
    match resolveObjType env otTok with
    | .error e => .error e
    | .ok obj_type =>
      match pyInt oiTok with
      | none => .error .intError
      | some obj_inst =>
        if env.getDatatype obj_type prop_id then
          let request : ReadPropertyRequest :=
            { pduDestination := addr
              objectIdentifier := (obj_type, obj_inst)
              propertyIdentifier := prop_id
              propertyArrayIndex := arr_index }
          -- `if len(args) == 5: request.propertyArrayIndex = int(args[4])`
          match rest with
          | [a4] =>
            match pyInt a4 with
            | some k => .ok { request with propertyArrayIndex := some k }
            | none => .error .intError
          | _ => .ok request
        else .error .invalidProperty
  | _ => .error .unpackError

/-- The tuple `('all', 'required', 'optional')` of the source. -/
def pSpecials : List String := ["all", "required", "optional"]

/-- The inner `while` loop of `build_rpm_request`: starting at the cursor,
consume a run of recognized property identifiers (each optionally followed by
a digit-string array index), validating the datatype of every identifier that
is not `all`/`required`/`optional`; stop at the first token not in
`PropertyIdentifier.enumerations` and return the property references built
together with the unconsumed remainder of the token list. -/
def parsePropRefs (env : Env) (obj_type : ObjType) (toks : List String) :
    Except BErr (List PropertyReference × List String) :=
  match toks with
  | [] => .ok ([], [])
  | prop_id :: rest =>
    if prop_id ∉ env.enumerations then
      -- `if prop_id not in PropertyIdentifier.enumerations: break`
      .ok ([], prop_id :: rest)
    else if prop_id ∉ pSpecials ∧ env.getDatatype obj_type prop_id = false then
      -- `if prop_id in ('all','required','optional'): pass else: ... raise`
      .error .invalidProperty
    else
      -- `if (i < len(args)) and args[i].isdigit(): ... propertyArrayIndex = int(args[i])`
      match rest with
      | [] => .ok ([⟨prop_id, none⟩], [])
      | idxTok :: rest2 =>
        if pyIsDigit idxTok then
          match parsePropRefs env obj_type rest2 with
          | .error e => .error e
          | .ok (refs, rem) =>
            .ok (⟨prop_id, some ((digitsToNat idxTok : Nat) : Int)⟩ :: refs, rem)
        else
          match parsePropRefs env obj_type (idxTok :: rest2) with
          | .error e => .error e
          | .ok (refs, rem) => .ok (⟨prop_id, none⟩ :: refs, rem)
termination_by toks.length
decreasing_by
  all_goals (simp only [List.length_cons]; omega)

theorem parsePropRefs_rem_length_le (env : Env) (obj_type : ObjType) :
    ∀ n toks refs rem, toks.length ≤ n →
      parsePropRefs env obj_type toks = .ok (refs, rem) →
      rem.length ≤ toks.length := by
  intro n
  induction n with
  | zero =>
    intro toks refs rem hlen h
    have : toks = [] := List.length_eq_zero.mp (Nat.le_zero.mp hlen)
    subst this
    rw [parsePropRefs] at h
    cases h
    simp
  | succ n ih =>
    intro toks refs rem hlen h
    cases toks with
    | nil =>
      rw [parsePropRefs] at h
      cases h
      simp
    | cons prop_id rest =>
      rw [parsePropRefs.eq_def] at h
      simp only at h
      split at h
      · cases h
        simp
      · split at h
        · cases h
        · cases rest with
          | nil =>
            simp only at h
            cases h
            simp
          | cons idxTok rest2 =>
            simp only at h
            split at h
            · -- index token consumed: recursion on rest2
              split at h
              · cases h
              · rename_i refs' rem' heq
                simp only [Except.ok.injEq, Prod.mk.injEq] at h
                obtain ⟨h1, h2⟩ := h
                have hle : rem'.length ≤ rest2.length :=
                  ih rest2 refs' rem' (by simp at hlen; omega) heq
                rw [← h2]
                simp only [List.length_cons]
                omega
            · -- no index token: recursion on idxTok :: rest2
              split at h
              · cases h
              · rename_i refs' rem' heq
                simp only [Except.ok.injEq, Prod.mk.injEq] at h
                obtain ⟨h1, h2⟩ := h
                have hle : rem'.length ≤ (idxTok :: rest2).length :=
                  ih (idxTok :: rest2) refs' rem' (by simp at hlen ⊢; omega) heq
                rw [← h2]
                simp only [List.length_cons] at hle ⊢
                omega

/-- The outer `while i < len(args)` loop of `build_rpm_request`: repeatedly
consume an object type token, an object instance token and a run of property
references (via `parsePropRefs`), building one `ReadAccessSpecification` per
round. -/
def parseGroups (env : Env) (args : List String) :
    Except BErr (List ReadAccessSpecification) :=
  match args with
  | [] => .ok []
  | otTok :: rest =>
    match resolveObjType env otTok with
    | .error e => .error e
    | .ok obj_type =>
      match rest with
      | [] => .error .indexError          -- `obj_inst = int(args[i])` with `i == len(args)`
      | oiTok :: rest2 =>
        match pyInt oiTok with
        | none => .error .intError
        | some obj_inst =>
          match hp : parsePropRefs env obj_type rest2 with
          | .error e => .error e
          | .ok (refs, rem) =>
            if refs.isEmpty then
              .error .emptyPropertyList   -- `raise ValueError("provide at least one property")`
            else
              match parseGroups env rem with
              | .error e => .error e
              | .ok specs =>
                .ok ({ objectIdentifier := (obj_type, obj_inst),
                       listOfPropertyReferences := refs } :: specs)
termination_by args.length
decreasing_by
  have := parsePropRefs_rem_length_le env obj_type rest2.length rest2 refs rem
    (Nat.le_refl _) hp
  simp only [List.length_cons]
  omega

/-- `ReadProperty.build_rpm_request(args)`. -/
def build_rpm_request (env : Env) (args : List String) :
    Except BErr ReadPropertyMultipleRequest :=
  match args with
  | [] => .error .indexError              -- `addr = args[i]` on an empty token list
  | addr :: rest =>
    match parseGroups env rest with
    | .error e => .error e
    | .ok specs =>
      if specs.isEmpty then
        .error .emptySpecList             -- `raise RuntimeError("at least one read access specification required")`
      else
        .ok { pduDestination := addr, listOfReadAccessSpecs := specs }

/-- `ReadProperty._TIMEOUT`: the fixed timeout, in seconds, passed to
`ResponseQueue.get(timeout=self._TIMEOUT)`. -/
def _TIMEOUT : Nat := 10

/-- Observable events of one `read`/`readMultiple` call, in program order:
entering/leaving the `with self.this_application._lock` block, the
`self.this_application.request(...)` submission, the `log_exception` call of
the submission `except` clause, the blocking `ResponseQueue.get` and the
`evt.set()` acknowledgment. -/
inductive Ev where
  | acquire
  | release
  | submit
  | logErr
  | queueGet
  | ackSet
deriving DecidableEq, Repr

/-- Outcome of the blocking `ResponseQueue.get(timeout=_TIMEOUT)`: either a
`(data, evt)` pair arrives within `_TIMEOUT` seconds, or the wait window
elapses with no message and `queue.Empty` is raised. -/
inductive QueueOutcome where
  | item (data : String)
  | timedOut
deriving DecidableEq, Repr

/-- Outcome of `self.this_application.request(...)`: it either returns, or
raises the protocol error the surrounding `except` clause catches
(`ReadPropertyException` in `read`, `ReadPropertyMultipleException` in
`readMultiple`; both, per the spec, modelled as one protocol-error outcome). -/
inductive SubmitOutcome where
  | ok
  | protocolError
deriving DecidableEq, Repr

/-- `ReadProperty.read(args, arr_index)`. Besides the call's result, returns
the list of observable events of the call. The `with` statement acquires the
lock after the started check and releases it on every exit from its body,
normal or exceptional. A `ValueError`/`RuntimeError` raised by
`build_rp_request` is not a `ReadPropertyException`, so it propagates out of
the `try` (releasing the lock); a protocol error raised by `request(...)` is
caught and logged, and execution falls through to the queue wait. -/
def read (env : Env) (sub : SubmitOutcome) (q : QueueOutcome)
    (args : String) (arr_index : Option Int) :
    Except BErr String × List Ev :=
  if !env.started then
    -- `raise ApplicationNotStarted('App not running, use startApp() function')`
    (.error .applicationNotStarted, [])
  else
    match build_rp_request env (pySplit args) arr_index with
    | .error e => (.error e, [.acquire, .release])
    | .ok _ =>
      let submitEvs : List Ev :=
        match sub with
        | .ok => [.submit]
        | .protocolError => [.submit, .logErr]    -- `log_exception("exception: %r", error)`
      match q with
      | .timedOut =>
        -- `except Empty as error: raise NoResponseFromController()`
        (.error .noResponseFromController,
          .acquire :: submitEvs ++ [.queueGet, .release])
      | .item data =>
        if data = "err_seg" then
          -- `if data == 'err_seg': raise SegmentationNotSupported`
          (.error .segmentationNotSupported,
            .acquire :: submitEvs ++ [.queueGet, .ackSet, .release])
        else
          (.ok data, .acquire :: submitEvs ++ [.queueGet, .ackSet, .release])

/-- `ReadProperty.readMultiple(args)`. Same shape as `read`, except the
request is built by `build_rpm_request` and — unlike `read` — the received
payload is returned unconditionally: the body of `readMultiple`'s `try` never
compares `data` with `'err_seg'`, so its
`except SegmentationNotSupported: raise` clause is unreachable. -/
def readMultiple (env : Env) (sub : SubmitOutcome) (q : QueueOutcome)
    (args : String) :
    Except BErr String × List Ev :=
  if !env.started then
    (.error .applicationNotStarted, [])
  else
    match build_rpm_request env (pySplit args) with
    | .error e => (.error e, [.acquire, .release])
    | .ok _ =>
      let submitEvs : List Ev :=
        match sub with
        | .ok => [.submit]
        | .protocolError => [.submit, .logErr]
      match q with
      | .timedOut =>
        (.error .noResponseFromController,
          .acquire :: submitEvs ++ [.queueGet, .release])
      | .item data =>
        (.ok data, .acquire :: submitEvs ++ [.queueGet, .ackSet, .release])

/-- Lock-discipline check over an event trace, threading the lock state:
an `acquire` is legal only when the lock is free, a `release` only when it is
held, and the trace must end with the lock free. -/
def lockOk (held : Bool) : List Ev → Bool
  | [] => !held
  | .acquire :: t => !held && lockOk true t
  | .release :: t => held && lockOk false t
  | _ :: t => lockOk held t

/-! ### Well-formed multi-read token lists

A multi-read token list is described by a list of object groups, each an
object-type token, an instance token and a run of property tokens with
optional array-index tokens.  `flattenGroups` rebuilds the token list the
caller would pass; the `…OK` predicates state the validity conditions under
which `build_rpm_request` accepts the list and the grouping is unambiguous. -/

/-- One property token with its optional trailing array-index token. -/
structure PropTok where
  pid : String
  idxTok : Option String
deriving DecidableEq, Repr

/-- One object group of a multi-read token list. -/
structure Group where
  typeTok : String
  instTok : String
  props : List PropTok
deriving DecidableEq, Repr

def flattenProps (ps : List PropTok) : List String :=
  (ps.map (fun p => p.pid :: p.idxTok.toList)).join

def flattenGroup (g : Group) : List String :=
  g.typeTok :: g.instTok :: flattenProps g.props

def flattenGroups (gs : List Group) : List String :=
  (gs.map flattenGroup).join

/-- The object type an accepted type token denotes (mirrors the
`isdigit`/registry branch of the source). -/
def objTypeOf (t : String) : ObjType :=
  if pyIsDigit t then .code (digitsToNat t) else .named t

def idxTokOK : Option String → Bool
  | none => true
  | some s => pyIsDigit s

/-- A property token the inner loop accepts for object type `ot`: recognized
by `PropertyIdentifier.enumerations`, not itself a digit string (so it is
never consumed as a preceding property's array index), datatype-valid unless
one of `all`/`required`/`optional`, and any explicit index token a digit
string. -/
def propTokOK (env : Env) (ot : ObjType) (p : PropTok) : Prop :=
  p.pid ∈ env.enumerations ∧ pyIsDigit p.pid = false ∧
    (p.pid ∈ pSpecials ∨ env.getDatatype ot p.pid = true) ∧
    idxTokOK p.idxTok = true

instance (env : Env) (ot : ObjType) (p : PropTok) : Decidable (propTokOK env ot p) := by
  unfold propTokOK
  infer_instance

/-- A well-formed object group: resolvable type token, digit-string instance
token, at least one property token, all property tokens acceptable. -/
def groupOK (env : Env) (g : Group) : Prop :=
  (pyIsDigit g.typeTok = true ∨ env.getObjectClass g.typeTok = true) ∧
    pyIsDigit g.instTok = true ∧
    g.props ≠ [] ∧
    ∀ p ∈ g.props, propTokOK env (objTypeOf g.typeTok) p

instance (env : Env) (g : Group) : Decidable (groupOK env g) := by
  unfold groupOK
  infer_instance

/-- Extra condition on every group after the first: its type token must not
look like a property identifier or an array index, otherwise the previous
group's inner loop would absorb it instead of stopping (the tie-break of the
grammar). -/
def laterGroupOK (env : Env) (g : Group) : Prop :=
  groupOK env g ∧ g.typeTok ∉ env.enumerations ∧ pyIsDigit g.typeTok = false

instance (env : Env) (g : Group) : Decidable (laterGroupOK env g) := by
  unfold laterGroupOK
  infer_instance

/-- A well-formed multi-read group list: non-empty, first group well formed,
later groups well formed and unambiguously delimited. -/
def wellFormedGroups (env : Env) : List Group → Prop
  | [] => False
  | g :: gs => groupOK env g ∧ ∀ g' ∈ gs, laterGroupOK env g'

/-- The `PropertyReference` the source builds from one property token. -/
def toRef (p : PropTok) : PropertyReference :=
  { propertyIdentifier := p.pid
    propertyArrayIndex := p.idxTok.map (fun s => ((digitsToNat s : Nat) : Int)) }

/-- The `ReadAccessSpecification` the source builds from one object group. -/
def groupSpec (g : Group) : ReadAccessSpecification :=
  { objectIdentifier := (objTypeOf g.typeTok, ((digitsToNat g.instTok : Nat) : Int))
    listOfPropertyReferences := g.props.map toRef }

/-- The token list that follows a group's property run either is exhausted or
starts with a token the inner loop rejects outright. -/
def stopsParse (env : Env) : List String → Prop
  | [] => True
  | u :: _ => u ∉ env.enumerations ∧ pyIsDigit u = false

theorem flattenProps_eq_nil {ps : List PropTok} (h : flattenProps ps = []) :
    ps = [] := by
  cases ps with
  | nil => rfl
  | cons p ps' => simp [flattenProps] at h

theorem parsePropRefs_nil (env : Env) (ot : ObjType) :
    parsePropRefs env ot [] = .ok ([], []) := by
  rw [parsePropRefs]

theorem parsePropRefs_stop (env : Env) (ot : ObjType) (u : String)
    (us : List String) (h : u ∉ env.enumerations) :
    parsePropRefs env ot (u :: us) = .ok ([], u :: us) := by
  rw [parsePropRefs.eq_def]
  simp [h]

theorem parsePropRefs_cons_idx (env : Env) (ot : ObjType) (pid s : String)
    (rest2 : List String) (h1 : pid ∈ env.enumerations)
    (h2 : pid ∈ pSpecials ∨ env.getDatatype ot pid = true)
    (h3 : pyIsDigit s = true) :
    parsePropRefs env ot (pid :: s :: rest2) =
      match parsePropRefs env ot rest2 with
      | .error e => .error e
      | .ok (refs, rem) =>
        .ok (⟨pid, some ((digitsToNat s : Nat) : Int)⟩ :: refs, rem) := by
  rw [parsePropRefs.eq_def]
  simp only []
  rw [if_neg (by simp [h1])]
  rw [if_neg (by rcases h2 with h2 | h2 <;> simp [h2])]
  simp only [h3, if_true]

theorem parsePropRefs_cons_noidx (env : Env) (ot : ObjType) (pid : String)
    (rest : List String) (h1 : pid ∈ env.enumerations)
    (h2 : pid ∈ pSpecials ∨ env.getDatatype ot pid = true)
    (h3 : rest = [] ∨ ∃ u us, rest = u :: us ∧ pyIsDigit u = false) :
    parsePropRefs env ot (pid :: rest) =
      match parsePropRefs env ot rest with
      | .error e => .error e
      | .ok (refs, rem) => .ok (⟨pid, none⟩ :: refs, rem) := by
  rw [parsePropRefs.eq_def]
  simp only []
  rw [if_neg (by simp [h1])]
  rw [if_neg (by rcases h2 with h2 | h2 <;> simp [h2])]
  rcases h3 with h3 | ⟨u, us, h3, hu⟩
  · subst h3
    rw [parsePropRefs_nil]
  · subst h3
    simp only [hu, Bool.false_eq_true, if_false]

theorem flattenProps_head_not_digit (env : Env) (ot : ObjType)
    (ps : List PropTok) (rest : List String)
    (hok : ∀ p ∈ ps, propTokOK env ot p) (hstop : stopsParse env rest) :
    flattenProps ps ++ rest = [] ∨
      ∃ u us, flattenProps ps ++ rest = u :: us ∧ pyIsDigit u = false := by
  cases ps with
  | nil =>
    cases hr : rest with
    | nil => exact Or.inl (by simp [flattenProps])
    | cons u us =>
      refine Or.inr ⟨u, us, by simp [flattenProps], ?_⟩
      rw [hr] at hstop
      exact hstop.2
  | cons q qs =>
    refine Or.inr ⟨q.pid, q.idxTok.toList ++ (flattenProps qs ++ rest),
      by simp [flattenProps], ?_⟩
    exact (hok q (by simp)).2.1

theorem parsePropRefs_flatten (env : Env) (ot : ObjType) :
    ∀ ps rest, (∀ p ∈ ps, propTokOK env ot p) → stopsParse env rest →
      parsePropRefs env ot (flattenProps ps ++ rest) = .ok (ps.map toRef, rest) := by
  intro ps
  induction ps with
  | nil =>
    intro rest _ hstop
    simp only [flattenProps, List.map_nil, List.join, List.nil_append]
    cases rest with
    | nil => exact parsePropRefs_nil env ot
    | cons u us => exact parsePropRefs_stop env ot u us hstop.1
  | cons p ps' ih =>
    intro rest hok hstop
    obtain ⟨hc, hnd, hv, hidx⟩ := hok p (by simp)
    have hps' : ∀ q ∈ ps', propTokOK env ot q := by
      intro q hq
      exact hok q (by simp [hq])
    have ihres := ih rest hps' hstop
    cases hi : p.idxTok with
    | some s =>
      have hs : pyIsDigit s = true := by
        rw [hi] at hidx
        exact hidx
      have hflat : flattenProps (p :: ps') ++ rest
          = p.pid :: s :: (flattenProps ps' ++ rest) := by
        simp [flattenProps, hi]
      rw [hflat, parsePropRefs_cons_idx env ot p.pid s _ hc hv hs, ihres]
      simp [toRef, hi]
    | none =>
      have hflat : flattenProps (p :: ps') ++ rest
          = p.pid :: (flattenProps ps' ++ rest) := by
        simp [flattenProps, hi]
      rw [hflat,
        parsePropRefs_cons_noidx env ot p.pid _ hc hv
          (flattenProps_head_not_digit env ot ps' rest hps' hstop),
        ihres]
      simp [toRef, hi]

theorem resolveObjType_accepted (env : Env) (t : String)
    (h : pyIsDigit t = true ∨ env.getObjectClass t = true) :
    resolveObjType env t = .ok (objTypeOf t) := by
  unfold resolveObjType objTypeOf
  rcases h with h | h
  · simp [h]
  · by_cases hd : pyIsDigit t <;> simp [hd, h]

theorem pyInt_digits (s : String) (h : pyIsDigit s = true) :
    pyInt s = some ((digitsToNat s : Nat) : Int) := by
  unfold pyInt
  simp [h]

theorem stopsParse_flattenGroups (env : Env) (gs : List Group)
    (h : ∀ g ∈ gs, g.typeTok ∉ env.enumerations ∧ pyIsDigit g.typeTok = false) :
    stopsParse env (flattenGroups gs) := by
  cases gs with
  | nil =>
    simp only [flattenGroups, List.map_nil, List.join]
    trivial
  | cons g2 rest =>
    have hflat : flattenGroups (g2 :: rest)
        = g2.typeTok :: (g2.instTok :: flattenProps g2.props ++ flattenGroups rest) := by
      simp [flattenGroups, flattenGroup]
    rw [hflat]
    exact h g2 (by simp)

theorem parseGroups_nil (env : Env) : parseGroups env [] = .ok [] := by
  rw [parseGroups]

theorem parseGroups_cons (env : Env) (t it : String) (rest2 rem : List String)
    (ot : ObjType) (n : Int) (refs : List PropertyReference)
    (h1 : resolveObjType env t = .ok ot) (h2 : pyInt it = some n)
    (h3 : parsePropRefs env ot rest2 = .ok (refs, rem)) (h4 : refs ≠ []) :
    parseGroups env (t :: it :: rest2) =
      match parseGroups env rem with
      | .error e => .error e
      | .ok specs =>
        .ok ({ objectIdentifier := (ot, n), listOfPropertyReferences := refs } :: specs) := by
  rw [parseGroups.eq_def]
  simp only [h1, h2, List.isEmpty_eq_true]
  split
  · rename_i e heq
    rw [h3] at heq
    cases heq
  · rename_i refs' rem' heq
    rw [h3] at heq
    simp only [Except.ok.injEq, Prod.mk.injEq] at heq
    obtain ⟨h5a, h5b⟩ := heq
    subst h5a
    subst h5b
    rw [if_neg h4]

theorem parseGroups_flatten (env : Env) :
    ∀ gs, (∀ g ∈ gs, groupOK env g) →
      (∀ g ∈ gs.tail, g.typeTok ∉ env.enumerations ∧ pyIsDigit g.typeTok = false) →
      parseGroups env (flattenGroups gs) = .ok (gs.map groupSpec) := by
  intro gs
  induction gs with
  | nil =>
    intro _ _
    simp only [flattenGroups, List.map_nil, List.join]
    exact parseGroups_nil env
  | cons g gs' ih =>
    intro hok hdelim
    obtain ⟨hres, hinst, hne, hprops⟩ := hok g (by simp)
    have hdelim' : ∀ g' ∈ gs', g'.typeTok ∉ env.enumerations ∧ pyIsDigit g'.typeTok = false := by
      intro g' hg'
      exact hdelim g' (by simpa using hg')
    have hflat : flattenGroups (g :: gs')
        = g.typeTok :: g.instTok :: (flattenProps g.props ++ flattenGroups gs') := by
      simp [flattenGroups, flattenGroup]
    have hrefs : parsePropRefs env (objTypeOf g.typeTok)
        (flattenProps g.props ++ flattenGroups gs')
        = .ok (g.props.map toRef, flattenGroups gs') :=
      parsePropRefs_flatten env (objTypeOf g.typeTok) g.props (flattenGroups gs')
        hprops (stopsParse_flattenGroups env gs' hdelim')
    have hne' : g.props.map toRef ≠ [] := by
      intro hcontra
      exact hne (List.map_eq_nil.mp hcontra)
    rw [hflat,
      parseGroups_cons env g.typeTok g.instTok _ _ (objTypeOf g.typeTok)
        ((digitsToNat g.instTok : Nat) : Int) (g.props.map toRef)
        (resolveObjType_accepted env g.typeTok hres) (pyInt_digits g.instTok hinst)
        hrefs hne',
      ih (fun g' hg' => hok g' (by simp [hg']))
        (fun g' hg' => hdelim' g' (List.tail_subset gs' hg'))]
    simp [groupSpec]

theorem parsePropRefs_invalid (env : Env) (ot : ObjType) (pid : String)
    (rest : List String) (h1 : pid ∈ env.enumerations) (h2 : pid ∉ pSpecials)
    (h3 : env.getDatatype ot pid = false) :
    parsePropRefs env ot (pid :: rest) = .error .invalidProperty := by
  rw [parsePropRefs.eq_def]
  simp [h1, h2, h3]

theorem parseGroups_cons_propErr (env : Env) (t it : String)
    (rest2 : List String) (ot : ObjType) (n : Int) (e : BErr)
    (h1 : resolveObjType env t = .ok ot) (h2 : pyInt it = some n)
    (h3 : parsePropRefs env ot rest2 = .error e) :
    parseGroups env (t :: it :: rest2) = .error e := by
  rw [parseGroups.eq_def]
  simp only [h1, h2]
  split
  · rename_i e' heq
    rw [h3] at heq
    injection heq with h4
    rw [h4]
  · rename_i refs' rem' heq
    rw [h3] at heq
    cases heq

theorem parseGroups_cons_emptyProps (env : Env) (t it : String)
    (rest2 : List String) (ot : ObjType) (n : Int)
    (h1 : resolveObjType env t = .ok ot) (h2 : pyInt it = some n)
    (h3 : parsePropRefs env ot rest2 = .ok ([], rest2)) :
    parseGroups env (t :: it :: rest2) = .error .emptyPropertyList := by
  rw [parseGroups.eq_def]
  simp only [h1, h2]
  split
  · rename_i e heq
    rw [h3] at heq
    cases heq
  · rename_i refs' rem' heq
    rw [h3] at heq
    simp only [Except.ok.injEq, Prod.mk.injEq] at heq
    obtain ⟨h5a, h5b⟩ := heq
    subst h5a
    subst h5b
    simp

theorem parseGroups_unknownType (env : Env) (t : String) (restM : List String)
    (h1 : pyIsDigit t = false) (h2 : env.getObjectClass t = false) :
    parseGroups env (t :: restM) = .error .unknownObjectType := by
  rw [parseGroups.eq_def]
  simp [resolveObjType, h1, h2]

/-! ### Lock-discipline helpers -/

/-- A trace that acquires the guard first, releases it last, and touches it
nowhere in between. -/
def WellBracketed (t : List Ev) : Prop :=
  ∃ mid, t = Ev.acquire :: (mid ++ [Ev.release])
    ∧ Ev.acquire ∉ mid ∧ Ev.release ∉ mid

theorem lockOk_append_no_lock_evs (t : List Ev)
    (h1 : Ev.acquire ∉ t) (h2 : Ev.release ∉ t) (held : Bool) (rest : List Ev) :
    lockOk held (t ++ rest) = lockOk held rest := by
  induction t with
  | nil => simp
  | cons e t' ih =>
    have he1 : e ≠ Ev.acquire := by
      intro hc
      exact h1 (by simp [hc])
    have he2 : e ≠ Ev.release := by
      intro hc
      exact h2 (by simp [hc])
    have ht1 : Ev.acquire ∉ t' := fun hc => h1 (by simp [hc])
    have ht2 : Ev.release ∉ t' := fun hc => h2 (by simp [hc])
    cases e with
    | acquire => exact absurd rfl he1
    | release => exact absurd rfl he2
    | submit => simpa [lockOk] using ih ht1 ht2
    | logErr => simpa [lockOk] using ih ht1 ht2
    | queueGet => simpa [lockOk] using ih ht1 ht2
    | ackSet => simpa [lockOk] using ih ht1 ht2

theorem wellBracketed_lockOk_append (t1 t2 : List Ev)
    (h1 : WellBracketed t1) (h2 : lockOk false t2 = true) :
    lockOk false (t1 ++ t2) = true := by
  obtain ⟨mid, heq, hm1, hm2⟩ := h1
  subst heq
  show lockOk false (Ev.acquire :: ((mid ++ [Ev.release]) ++ t2)) = true
  have : lockOk true ((mid ++ [Ev.release]) ++ t2) = true := by
    rw [List.append_assoc, lockOk_append_no_lock_evs mid hm1 hm2]
    simpa [lockOk] using h2
  simpa [lockOk] using this

theorem wellBracketed_lockOk (t : List Ev) (h : WellBracketed t) :
    lockOk false t = true := by
  have := wellBracketed_lockOk_append t [] h (by simp [lockOk])
  simpa using this

theorem wellBracketed_counts (t : List Ev) (h : WellBracketed t) :
    t.count Ev.acquire = 1 ∧ t.count Ev.release = 1 := by
  obtain ⟨mid, heq, hm1, hm2⟩ := h
  subst heq
  constructor
  · simp [List.count_cons, List.count_append, List.count_eq_zero_of_not_mem hm1]
  · simp [List.count_cons, List.count_append, List.count_eq_zero_of_not_mem hm2]

theorem read_trace_wellBracketed (env : Env) (sub : SubmitOutcome)
    (q : QueueOutcome) (args : String) (idx : Option Int)
    (h : env.started = true) :
    WellBracketed (read env sub q args idx).2 := by
  unfold read
  rw [h]
  simp only [Bool.not_true, Bool.false_eq_true, if_false]
  split
  · exact ⟨[], by simp, by simp, by simp⟩
  · cases sub with
    | ok =>
      cases q with
      | timedOut => exact ⟨[.submit, .queueGet], by simp, by decide, by decide⟩
      | item data =>
        by_cases hd : data = "err_seg" <;>
          · simp only [hd, if_true, if_false, reduceIte]
            exact ⟨[.submit, .queueGet, .ackSet], by simp, by decide, by decide⟩
    | protocolError =>
      cases q with
      | timedOut => exact ⟨[.submit, .logErr, .queueGet], by simp, by decide, by decide⟩
      | item data =>
        by_cases hd : data = "err_seg" <;>
          · simp only [hd, if_true, if_false, reduceIte]
            exact ⟨[.submit, .logErr, .queueGet, .ackSet], by simp, by decide, by decide⟩

theorem readMultiple_trace_wellBracketed (env : Env) (sub : SubmitOutcome)
    (q : QueueOutcome) (args : String) (h : env.started = true) :
    WellBracketed (readMultiple env sub q args).2 := by
  unfold readMultiple
  rw [h]
  simp only [Bool.not_true, Bool.false_eq_true, if_false]
  split
  · exact ⟨[], by simp, by simp, by simp⟩
  · cases sub with
    | ok =>
      cases q with
      | timedOut => exact ⟨[.submit, .queueGet], by simp, by decide, by decide⟩
      | item data => exact ⟨[.submit, .queueGet, .ackSet], by simp, by decide, by decide⟩
    | protocolError =>
      cases q with
      | timedOut => exact ⟨[.submit, .logErr, .queueGet], by simp, by decide, by decide⟩
      | item data =>
        exact ⟨[.submit, .logErr, .queueGet, .ackSet], by simp, by decide, by decide⟩

/-! ### A concrete environment and inputs, used to instantiate the theorems -/

/-- A small concrete registry: the engine is started, `analogInput` is the
one named object class, `presentValue` and `units` are the datatype-carrying
properties, and the recognized property identifiers additionally contain
`description` (no datatype here) and the three property-set selectors. -/
def demoEnv : Env :=
  { started := true
    getObjectClass := fun s => s == "analogInput"
    getDatatype := fun _ p => p == "presentValue" || p == "units"
    enumerations := ["presentValue", "units", "description", "all", "required", "optional"] }

/-- `demoEnv` with the engine not yet started. -/
def demoEnvStopped : Env :=
  { demoEnv with started := false }

/-- The group list of the spec's own example
`readMultiple('2:5 analogInput 1 presentValue units')`. -/
def demoGroups : List Group :=
  [⟨"analogInput", "1", [⟨"presentValue", none⟩, ⟨"units", none⟩]⟩]

/-- The request `build_rp_request` builds for
`'2:5 analogInput 1 presentValue'` with no array index. -/
def demoRpReq : ReadPropertyRequest :=
  { pduDestination := "2:5"
    objectIdentifier := (.named "analogInput", 1)
    propertyIdentifier := "presentValue"
    propertyArrayIndex := none }

/-- The request `build_rpm_request` builds for
`'2:5 analogInput 1 presentValue units'`. -/
def demoRpmReq : ReadPropertyMultipleRequest :=
  { pduDestination := "2:5"
    listOfReadAccessSpecs :=
      [{ objectIdentifier := (.named "analogInput", 1)
         listOfPropertyReferences := [⟨"presentValue", none⟩, ⟨"units", none⟩] }] }

theorem demo_rp_eval :
    build_rp_request demoEnv (pySplit "2:5 analogInput 1 presentValue") none
      = .ok demoRpReq := by decide

theorem demo_wellFormedGroups : wellFormedGroups demoEnv demoGroups := by
  unfold wellFormedGroups demoGroups
  exact ⟨by decide, by simp⟩

theorem demo_rpm_eval :
    build_rpm_request demoEnv (pySplit "2:5 analogInput 1 presentValue units")
      = .ok demoRpmReq := by
  have hok : ∀ g ∈ demoGroups, groupOK demoEnv g := by decide
  have hpg := parseGroups_flatten demoEnv demoGroups hok (by simp [demoGroups])
  have hflat : flattenGroups demoGroups
      = ["analogInput", "1", "presentValue", "units"] := by decide
  have hmap : demoGroups.map groupSpec = demoRpmReq.listOfReadAccessSpecs := by decide
  rw [hflat, hmap] at hpg
  have hsplit : pySplit "2:5 analogInput 1 presentValue units"
      = "2:5" :: ["analogInput", "1", "presentValue", "units"] := by decide
  rw [hsplit]
  simp [build_rpm_request, hpg, demoRpmReq]

/-! ### Claim theorems -/

/-- Claim C4: for every valid 4-token single-read spec, `build_rp_request`
produces a request whose destination address, object type, object instance
and property identifier match the tokens and whose array index is the
passed-in optional index (in particular unset when none is passed); with a
valid 5th token, the array index is instead the 5th token parsed as an
integer, overriding the passed-in index. -/
theorem build_rp_request_tokens_match (env : Env)
    (addr otTok oiTok pid a5 : String) (idx : Option Int) (n k : Int)
    (h1 : pyIsDigit otTok = true ∨ env.getObjectClass otTok = true)
    (h2 : pyInt oiTok = some n)
    (h3 : env.getDatatype (objTypeOf otTok) pid = true)
    (h4 : pyInt a5 = some k) :
    build_rp_request env [addr, otTok, oiTok, pid] idx
      = .ok { pduDestination := addr
              objectIdentifier := (objTypeOf otTok, n)
              propertyIdentifier := pid
              propertyArrayIndex := idx }
    ∧ build_rp_request env [addr, otTok, oiTok, pid, a5] idx
      = .ok { pduDestination := addr
              objectIdentifier := (objTypeOf otTok, n)
              propertyIdentifier := pid
              propertyArrayIndex := some k } := by
  have hres := resolveObjType_accepted env otTok h1
  constructor <;> simp [build_rp_request, hres, h2, h3, h4]

theorem build_rp_request_tokens_match_witness :
    build_rp_request demoEnv ["2:5", "analogInput", "1", "presentValue"] none
      = .ok { pduDestination := "2:5"
              objectIdentifier := (objTypeOf "analogInput", 1)
              propertyIdentifier := "presentValue"
              propertyArrayIndex := none }
    ∧ build_rp_request demoEnv ["2:5", "analogInput", "1", "presentValue", "3"] none
      = .ok { pduDestination := "2:5"
              objectIdentifier := (objTypeOf "analogInput", 1)
              propertyIdentifier := "presentValue"
              propertyArrayIndex := some 3 } :=
  build_rp_request_tokens_match demoEnv "2:5" "analogInput" "1" "presentValue" "3"
    none 1 3 (by decide) (by decide) (by decide) (by decide)

/-- Claim C7: an object-type token that is not a digit string and does not
resolve in the registry makes both builders fail with `UnknownObjectType`;
neither produces a request. -/
theorem unknown_object_type_fails (env : Env) (addr t oiTok pid : String)
    (rest restM : List String) (idx : Option Int)
    (h1 : pyIsDigit t = false) (h2 : env.getObjectClass t = false) :
    build_rp_request env (addr :: t :: oiTok :: pid :: rest) idx
      = .error .unknownObjectType
    ∧ build_rpm_request env (addr :: t :: restM) = .error .unknownObjectType := by
  have hres : resolveObjType env t = .error .unknownObjectType := by
    simp [resolveObjType, h1, h2]
  constructor
  · simp [build_rp_request, hres]
  · simp [build_rpm_request, parseGroups_unknownType env t restM h1 h2]

theorem unknown_object_type_fails_witness :
    build_rp_request demoEnv ["2:5", "foo", "1", "presentValue"] none
      = .error .unknownObjectType
    ∧ build_rpm_request demoEnv ["2:5", "foo", "1", "presentValue"]
      = .error .unknownObjectType :=
  unknown_object_type_fails demoEnv "2:5" "foo" "1" "presentValue" [] ["1", "presentValue"]
    none (by decide) (by decide)

/-- Claim C8: a property identifier with no datatype for its resolved object
type makes `build_rp_request` fail with `InvalidProperty`, and makes
`build_rpm_request` fail with `InvalidProperty` when the identifier is
recognized but not one of `all`/`required`/`optional`; those three special
identifiers bypass datatype validation in the multi-read builder and are
accepted as property references (note the absence of any datatype hypothesis
in the third conjunct). -/
theorem invalid_property_fails_specials_bypass (env : Env)
    (addr otTok oiTok pid sp : String) (rest restS : List String)
    (idx : Option Int)
    (hres : pyIsDigit otTok = true ∨ env.getObjectClass otTok = true)
    (hinst : pyIsDigit oiTok = true) :
    (env.getDatatype (objTypeOf otTok) pid = false →
      build_rp_request env (addr :: otTok :: oiTok :: pid :: rest) idx
        = .error .invalidProperty)
    ∧ (pid ∈ env.enumerations → pid ∉ pSpecials →
        env.getDatatype (objTypeOf otTok) pid = false →
        build_rpm_request env (addr :: otTok :: oiTok :: pid :: restS)
          = .error .invalidProperty)
    ∧ (sp ∈ pSpecials → sp ∈ env.enumerations →
        build_rpm_request env [addr, otTok, oiTok, sp]
          = .ok { pduDestination := addr
                  listOfReadAccessSpecs :=
                    [{ objectIdentifier :=
                        (objTypeOf otTok, ((digitsToNat oiTok : Nat) : Int))
                       listOfPropertyReferences := [⟨sp, none⟩] }] }) := by
  have hres' := resolveObjType_accepted env otTok hres
  have hint := pyInt_digits oiTok hinst
  refine ⟨?_, ?_, ?_⟩
  · intro hbad
    simp [build_rp_request, hres', hint, hbad]
  · intro hmem hnsp hbad
    have hinv := parsePropRefs_invalid env (objTypeOf otTok) pid restS hmem hnsp hbad
    have := parseGroups_cons_propErr env otTok oiTok (pid :: restS) (objTypeOf otTok)
      ((digitsToNat oiTok : Nat) : Int) .invalidProperty hres' hint hinv
    simp [build_rpm_request, this]
  · intro hsp hspMem
    have hpr : parsePropRefs env (objTypeOf otTok) [sp] = .ok ([⟨sp, none⟩], []) := by
      rw [parsePropRefs_cons_noidx env (objTypeOf otTok) sp [] hspMem (Or.inl hsp)
        (Or.inl rfl)]
      rw [parsePropRefs_nil]
    have := parseGroups_cons env otTok oiTok [sp] [] (objTypeOf otTok)
      ((digitsToNat oiTok : Nat) : Int) [⟨sp, none⟩] hres' hint hpr (by simp)
    rw [parseGroups_nil] at this
    simp [build_rpm_request, this]

theorem invalid_property_fails_specials_bypass_witness :
    build_rp_request demoEnv ["2:5", "analogInput", "1", "description"] none
      = .error .invalidProperty
    ∧ build_rpm_request demoEnv ["2:5", "analogInput", "1", "description"]
      = .error .invalidProperty
    ∧ build_rpm_request demoEnv ["2:5", "analogInput", "1", "all"]
      = .ok { pduDestination := "2:5"
              listOfReadAccessSpecs :=
                [{ objectIdentifier := (objTypeOf "analogInput", 1)
                   listOfPropertyReferences := [⟨"all", none⟩] }] } := by
  obtain ⟨a, b, c⟩ := invalid_property_fails_specials_bypass demoEnv "2:5" "analogInput"
    "1" "description" "all" [] [] none (by decide) (by decide)
  exact ⟨a (by decide), b (by decide) (by decide) (by decide),
    c (by decide) (by decide)⟩

/-- Claim C10: with 6 or more tokens whose first four are valid,
`build_rp_request` silently ignores everything past the 4th token (the
5th-token override fires only at exactly 5 tokens): the result succeeds and
equals the request built from the first four tokens with the passed-in
optional index. -/
theorem extra_tokens_ignored (env : Env) (addr otTok oiTok pid u v : String)
    (rs : List String) (idx : Option Int) (n : Int)
    (h1 : pyIsDigit otTok = true ∨ env.getObjectClass otTok = true)
    (h2 : pyInt oiTok = some n)
    (h3 : env.getDatatype (objTypeOf otTok) pid = true) :
    build_rp_request env (addr :: otTok :: oiTok :: pid :: u :: v :: rs) idx
      = build_rp_request env [addr, otTok, oiTok, pid] idx
    ∧ build_rp_request env (addr :: otTok :: oiTok :: pid :: u :: v :: rs) idx
      = .ok { pduDestination := addr
              objectIdentifier := (objTypeOf otTok, n)
              propertyIdentifier := pid
              propertyArrayIndex := idx } := by
  have hres := resolveObjType_accepted env otTok h1
  constructor <;> simp [build_rp_request, hres, h2, h3]

theorem extra_tokens_ignored_witness :
    build_rp_request demoEnv ["2:5", "analogInput", "1", "presentValue", "9", "9"] none
      = build_rp_request demoEnv ["2:5", "analogInput", "1", "presentValue"] none
    ∧ build_rp_request demoEnv ["2:5", "analogInput", "1", "presentValue", "9", "9"] none
      = .ok { pduDestination := "2:5"
              objectIdentifier := (objTypeOf "analogInput", 1)
              propertyIdentifier := "presentValue"
              propertyArrayIndex := none } :=
  extra_tokens_ignored demoEnv "2:5" "analogInput" "1" "presentValue" "9" "9" [] none 1
    (by decide) (by decide) (by decide)

/-- Claim C3: for a multi-read token list made of a destination address
followed by N well-formed object groups, `build_rpm_request` produces exactly
N `ReadAccessSpecification`s in input order, each with a non-empty
property-reference list; it fails with `EmptyPropertyList` when an object
group's inner loop consumes zero property references, and with
`EmptySpecList` when the outer loop produces zero specifications. -/
theorem build_rpm_request_groups (env : Env) (addr : String) (gs : List Group)
    (hwf : wellFormedGroups env gs) :
    (∃ req, build_rpm_request env (addr :: flattenGroups gs) = .ok req
        ∧ req.pduDestination = addr
        ∧ req.listOfReadAccessSpecs = gs.map groupSpec
        ∧ req.listOfReadAccessSpecs.length = gs.length
        ∧ ∀ sp ∈ req.listOfReadAccessSpecs, sp.listOfPropertyReferences ≠ [])
    ∧ (∀ t it rest ot, resolveObjType env t = .ok ot → pyIsDigit it = true →
        stopsParse env rest →
        build_rpm_request env (addr :: t :: it :: rest) = .error .emptyPropertyList)
    ∧ build_rpm_request env [addr] = .error .emptySpecList := by
  refine ⟨?_, ?_, ?_⟩
  · match gs with
    | [] => exact absurd hwf (by simp [wellFormedGroups])
    | g :: gs' =>
      obtain ⟨hg, hlater⟩ := hwf
      have hok : ∀ g'' ∈ g :: gs', groupOK env g'' := by
        intro g'' hmem
        rcases List.mem_cons.mp hmem with hmem | hmem
        · exact hmem ▸ hg
        · exact (hlater g'' hmem).1
      have hdelim : ∀ g'' ∈ (g :: gs').tail,
          g''.typeTok ∉ env.enumerations ∧ pyIsDigit g''.typeTok = false := by
        intro g'' hmem
        exact ⟨(hlater g'' hmem).2.1, (hlater g'' hmem).2.2⟩
      have hpg := parseGroups_flatten env (g :: gs') hok hdelim
      refine ⟨{ pduDestination := addr
                listOfReadAccessSpecs := (g :: gs').map groupSpec }, ?_, rfl, rfl,
        by simp, ?_⟩
      · simp [build_rpm_request, hpg]
      · intro sp hsp
        simp only [List.mem_map] at hsp
        obtain ⟨g0, hg0, hspec⟩ := hsp
        have : g0.props ≠ [] := (hok g0 hg0).2.2.1
        rw [← hspec]
        simp only [groupSpec, ne_eq, List.map_eq_nil]
        exact this
  · intro t it rest ot h1 h2 h3
    have hrefs : parsePropRefs env ot rest = .ok ([], rest) := by
      cases rest with
      | nil => exact parsePropRefs_nil env ot
      | cons u us => exact parsePropRefs_stop env ot u us h3.1
    have := parseGroups_cons_emptyProps env t it rest ot
      ((digitsToNat it : Nat) : Int) h1 (pyInt_digits it h2) hrefs
    simp [build_rpm_request, this]
  · simp [build_rpm_request, parseGroups_nil]

theorem build_rpm_request_groups_witness :
    (∃ req, build_rpm_request demoEnv ("2:5" :: flattenGroups demoGroups) = .ok req
        ∧ req.pduDestination = "2:5"
        ∧ req.listOfReadAccessSpecs = demoGroups.map groupSpec
        ∧ req.listOfReadAccessSpecs.length = demoGroups.length
        ∧ ∀ sp ∈ req.listOfReadAccessSpecs, sp.listOfPropertyReferences ≠ [])
    ∧ (∀ t it rest ot, resolveObjType demoEnv t = .ok ot → pyIsDigit it = true →
        stopsParse demoEnv rest →
        build_rpm_request demoEnv ("2:5" :: t :: it :: rest)
          = .error .emptyPropertyList)
    ∧ build_rpm_request demoEnv ["2:5"] = .error .emptySpecList :=
  build_rpm_request_groups demoEnv "2:5" demoGroups demo_wellFormedGroups

/-- Claim C5: a call to `read` or `readMultiple` while the engine is not
started fails with `NotStarted` (`ApplicationNotStarted`) immediately: the
result is the bare error and the event trace is empty — no request is built,
nothing is submitted, and the guard is never acquired. -/
theorem not_started_fails_immediately (env : Env) (sub : SubmitOutcome)
    (q : QueueOutcome) (args : String) (idx : Option Int)
    (h : env.started = false) :
    read env sub q args idx = (.error .applicationNotStarted, [])
    ∧ readMultiple env sub q args = (.error .applicationNotStarted, []) := by
  constructor <;> simp [read, readMultiple, h]

theorem not_started_fails_immediately_witness :
    read demoEnvStopped .ok (.item "42") "2:5 analogInput 1 presentValue" none
      = (.error .applicationNotStarted, [])
    ∧ readMultiple demoEnvStopped .ok (.item "42") "2:5 analogInput 1 presentValue"
      = (.error .applicationNotStarted, []) :=
  not_started_fails_immediately demoEnvStopped .ok (.item "42")
    "2:5 analogInput 1 presentValue" none rfl

/-- Claim C1 (divergence): when the payload received from the response queue
equals the segmentation sentinel `'err_seg'`, `read` fails with
`SegmentationNotSupported`, but `readMultiple` returns the sentinel payload
as the call's value — its body never compares the payload with the sentinel,
leaving its `except SegmentationNotSupported: raise` clause unreachable. -/
theorem read_sentinel_fails_but_readMultiple_returns_it :
    (read demoEnv .ok (.item "err_seg") "2:5 analogInput 1 presentValue" none).1
      = .error .segmentationNotSupported
    ∧ (readMultiple demoEnv .ok (.item "err_seg")
        "2:5 analogInput 1 presentValue units").1 = .ok "err_seg" := by
  have hs : demoEnv.started = true := rfl
  constructor
  · simp [read, hs, demo_rp_eval]
  · simp [readMultiple, hs, demo_rpm_eval]

/-- Claim C2: in the started state every `read`/`readMultiple` call acquires
the guard exactly once and releases it exactly once, with the acquire first
and the release last (`WellBracketed`); consequently the sequential
composition of any two calls respects the lock discipline (`lockOk` from the
free state): the second call's acquire can only happen after the first
call's release has freed the guard. -/
theorem guard_exactly_once_and_serialized (env : Env)
    (sub sub' : SubmitOutcome) (q q' : QueueOutcome)
    (args args' : String) (idx idx' : Option Int)
    (h : env.started = true) :
    ((read env sub q args idx).2.count Ev.acquire = 1
      ∧ (read env sub q args idx).2.count Ev.release = 1
      ∧ WellBracketed (read env sub q args idx).2)
    ∧ ((readMultiple env sub q args).2.count Ev.acquire = 1
      ∧ (readMultiple env sub q args).2.count Ev.release = 1
      ∧ WellBracketed (readMultiple env sub q args).2)
    ∧ lockOk false ((read env sub q args idx).2
        ++ (read env sub' q' args' idx').2) = true
    ∧ lockOk false ((read env sub q args idx).2
        ++ (readMultiple env sub' q' args').2) = true
    ∧ lockOk false ((readMultiple env sub q args).2
        ++ (read env sub' q' args' idx').2) = true
    ∧ lockOk false ((readMultiple env sub q args).2
        ++ (readMultiple env sub' q' args').2) = true := by
  have w1 := read_trace_wellBracketed env sub q args idx h
  have w2 := readMultiple_trace_wellBracketed env sub q args h
  have w1' := read_trace_wellBracketed env sub' q' args' idx' h
  have w2' := readMultiple_trace_wellBracketed env sub' q' args' h
  obtain ⟨c1, c2⟩ := wellBracketed_counts _ w1
  obtain ⟨c3, c4⟩ := wellBracketed_counts _ w2
  exact ⟨⟨c1, c2, w1⟩, ⟨c3, c4, w2⟩,
    wellBracketed_lockOk_append _ _ w1 (wellBracketed_lockOk _ w1'),
    wellBracketed_lockOk_append _ _ w1 (wellBracketed_lockOk _ w2'),
    wellBracketed_lockOk_append _ _ w2 (wellBracketed_lockOk _ w1'),
    wellBracketed_lockOk_append _ _ w2 (wellBracketed_lockOk _ w2')⟩

theorem guard_exactly_once_and_serialized_witness :
    ((read demoEnv .ok (.item "42") "2:5 analogInput 1 presentValue" none).2.count
        Ev.acquire = 1
      ∧ (read demoEnv .ok (.item "42")
          "2:5 analogInput 1 presentValue" none).2.count Ev.release = 1
      ∧ WellBracketed (read demoEnv .ok (.item "42")
          "2:5 analogInput 1 presentValue" none).2)
    ∧ ((readMultiple demoEnv .ok (.item "42")
          "2:5 analogInput 1 presentValue").2.count Ev.acquire = 1
      ∧ (readMultiple demoEnv .ok (.item "42")
          "2:5 analogInput 1 presentValue").2.count Ev.release = 1
      ∧ WellBracketed (readMultiple demoEnv .ok (.item "42")
          "2:5 analogInput 1 presentValue").2)
    ∧ lockOk false ((read demoEnv .ok (.item "42")
          "2:5 analogInput 1 presentValue" none).2
        ++ (read demoEnv .protocolError .timedOut
            "2:5 analogInput 1 presentValue" none).2) = true
    ∧ lockOk false ((read demoEnv .ok (.item "42")
          "2:5 analogInput 1 presentValue" none).2
        ++ (readMultiple demoEnv .protocolError .timedOut
            "2:5 analogInput 1 presentValue").2) = true
    ∧ lockOk false ((readMultiple demoEnv .ok (.item "42")
          "2:5 analogInput 1 presentValue").2
        ++ (read demoEnv .protocolError .timedOut
            "2:5 analogInput 1 presentValue" none).2) = true
    ∧ lockOk false ((readMultiple demoEnv .ok (.item "42")
          "2:5 analogInput 1 presentValue").2
        ++ (readMultiple demoEnv .protocolError .timedOut
            "2:5 analogInput 1 presentValue").2) = true :=
  guard_exactly_once_and_serialized demoEnv .ok .protocolError (.item "42") .timedOut
    "2:5 analogInput 1 presentValue" "2:5 analogInput 1 presentValue" none none rfl

/-- Claim C6: the wait on the response queue uses the fixed 10-second
`_TIMEOUT`; a call that receives no message within that window fails with
`NoResponseFromController`, and the guard is released afterward (release is
the last event and the whole trace respects the lock discipline, so a
subsequent call can acquire the guard). -/
theorem timeout_no_response_guard_released (env : Env) (sub : SubmitOutcome)
    (args argsM : String) (idx : Option Int)
    (req : ReadPropertyRequest) (reqM : ReadPropertyMultipleRequest)
    (h : env.started = true)
    (hb : build_rp_request env (pySplit args) idx = .ok req)
    (hbM : build_rpm_request env (pySplit argsM) = .ok reqM) :
    _TIMEOUT = 10
    ∧ (read env sub .timedOut args idx).1 = .error .noResponseFromController
    ∧ (read env sub .timedOut args idx).2.getLast? = some .release
    ∧ lockOk false (read env sub .timedOut args idx).2 = true
    ∧ (readMultiple env sub .timedOut argsM).1 = .error .noResponseFromController
    ∧ (readMultiple env sub .timedOut argsM).2.getLast? = some .release
    ∧ lockOk false (readMultiple env sub .timedOut argsM).2 = true := by
  refine ⟨rfl, ?_, ?_, ?_, ?_, ?_, ?_⟩
  · cases sub <;> simp [read, h, hb]
  · cases sub <;> simp [read, h, hb]
  · exact wellBracketed_lockOk _ (read_trace_wellBracketed env sub .timedOut args idx h)
  · cases sub <;> simp [readMultiple, h, hbM]
  · cases sub <;> simp [readMultiple, h, hbM]
  · exact wellBracketed_lockOk _ (readMultiple_trace_wellBracketed env sub .timedOut argsM h)

theorem timeout_no_response_guard_released_witness :
    _TIMEOUT = 10
    ∧ (read demoEnv .ok .timedOut "2:5 analogInput 1 presentValue" none).1
      = .error .noResponseFromController
    ∧ (read demoEnv .ok .timedOut
        "2:5 analogInput 1 presentValue" none).2.getLast? = some .release
    ∧ lockOk false (read demoEnv .ok .timedOut
        "2:5 analogInput 1 presentValue" none).2 = true
    ∧ (readMultiple demoEnv .ok .timedOut "2:5 analogInput 1 presentValue units").1
      = .error .noResponseFromController
    ∧ (readMultiple demoEnv .ok .timedOut
        "2:5 analogInput 1 presentValue units").2.getLast? = some .release
    ∧ lockOk false (readMultiple demoEnv .ok .timedOut
        "2:5 analogInput 1 presentValue units").2 = true :=
  timeout_no_response_guard_released demoEnv .ok "2:5 analogInput 1 presentValue"
    "2:5 analogInput 1 presentValue units" none demoRpReq demoRpmReq rfl
    demo_rp_eval demo_rpm_eval

/-- Claim C9: when submission of the built request raises a protocol error
(`ReadPropertyException` / `ReadPropertyMultipleException`), the error is
logged (`logErr` appears in the trace) and the call is not aborted: the
method still blocks on the response queue (`queueGet` appears) and its
result is the same as the result of the identical call whose submission
succeeded. -/
theorem submission_error_logged_wait_proceeds (env : Env) (q : QueueOutcome)
    (args argsM : String) (idx : Option Int)
    (req : ReadPropertyRequest) (reqM : ReadPropertyMultipleRequest)
    (h : env.started = true)
    (hb : build_rp_request env (pySplit args) idx = .ok req)
    (hbM : build_rpm_request env (pySplit argsM) = .ok reqM) :
    ((read env .protocolError q args idx).1 = (read env .ok q args idx).1
      ∧ Ev.logErr ∈ (read env .protocolError q args idx).2
      ∧ Ev.queueGet ∈ (read env .protocolError q args idx).2)
    ∧ ((readMultiple env .protocolError q argsM).1
        = (readMultiple env .ok q argsM).1
      ∧ Ev.logErr ∈ (readMultiple env .protocolError q argsM).2
      ∧ Ev.queueGet ∈ (readMultiple env .protocolError q argsM).2) := by
  refine ⟨⟨?_, ?_, ?_⟩, ⟨?_, ?_, ?_⟩⟩ <;>
    cases q with
    | timedOut => simp [read, readMultiple, h, hb, hbM]
    | item data =>
      by_cases hd : data = "err_seg" <;> simp [read, readMultiple, h, hb, hbM, hd]

theorem submission_error_logged_wait_proceeds_witness :
    ((read demoEnv .protocolError (.item "42")
        "2:5 analogInput 1 presentValue" none).1
      = (read demoEnv .ok (.item "42") "2:5 analogInput 1 presentValue" none).1
      ∧ Ev.logErr ∈ (read demoEnv .protocolError (.item "42")
          "2:5 analogInput 1 presentValue" none).2
      ∧ Ev.queueGet ∈ (read demoEnv .protocolError (.item "42")
          "2:5 analogInput 1 presentValue" none).2)
    ∧ ((readMultiple demoEnv .protocolError (.item "42")
          "2:5 analogInput 1 presentValue units").1
        = (readMultiple demoEnv .ok (.item "42")
            "2:5 analogInput 1 presentValue units").1
      ∧ Ev.logErr ∈ (readMultiple demoEnv .protocolError (.item "42")
          "2:5 analogInput 1 presentValue units").2
      ∧ Ev.queueGet ∈ (readMultiple demoEnv .protocolError (.item "42")
          "2:5 analogInput 1 presentValue units").2) :=
  submission_error_logged_wait_proceeds demoEnv (.item "42")
    "2:5 analogInput 1 presentValue" "2:5 analogInput 1 presentValue units" none
    demoRpReq demoRpmReq rfl demo_rp_eval demo_rpm_eval

end BAC0
